import Mathlib

/-!
Shallow embedding of `src/batching/batchqueue.py` (the `BatchQueue` class and
the `rate_limited` decorator).

Modelling conventions:
- `α` is the type of requests (opaque `HttpRequest` descriptors), `β` the type
  of caller-supplied callbacks (opaque: the code only stores and forwards them).
- The Python dict `self.call_backs` is an association list with dict semantics:
  insertion overwrites an existing binding in place, lookup returns the bound
  value or `none` (a `none` result models the `KeyError` Python raises).
- The FIFO `self.queue` (a `Queue.Queue`) is a list whose head is the front.
- `str(uuid.uuid4())` is nondeterministic, so `add` takes the freshly generated
  string as an explicit argument `fresh`.
- Wall-clock time is an explicit rational parameter; `time.sleep(d)` advances
  the clock by exactly `d`.  The `rate_limited` decorator's closure cell
  `last_time_called` and the clock are threaded explicitly.
- `BatchHttpRequest(...).execute(...)` is the transport boundary; `execute`
  returns the list of transport submissions it performs (always exactly one,
  mirroring the unconditional `batch.execute(...)` call on line 119).
-/

/-- Python dict insertion `d[k] = v`: overwrites the binding of `k` if present,
otherwise appends a new binding. -/
def dictInsert {β : Type} (d : List (String × β)) (k : String) (v : β) :
    List (String × β) :=
  match d with
  | [] => [(k, v)]
  | (k', v') :: rest =>
      if k' = k then (k, v) :: rest else (k', v') :: dictInsert rest k v

/-- Python dict lookup `d[k]`: `some v` if bound, `none` models the `KeyError`
raised when `k` is absent. -/
def dictLookup {β : Type} (d : List (String × β)) (k : String) : Option β :=
  match d with
  | [] => none
  | (k', v') :: rest => if k' = k then some v' else dictLookup rest k

/-- The mutable state of one `BatchQueue` instance (`__init__`, lines 46-56):
`quota`, the callback registry `call_backs`, the FIFO `queue` of
(request, request_id) pairs, the completion counter `count`, and the
construction timestamp `start` (`time.time()`, recorded and never read). -/
structure BatchQueueState (α β : Type) where
  quota : Nat
  call_backs : List (String × β)
  queue : List (α × String)
  count : Nat
  start : ℚ
deriving DecidableEq

/-- `BatchQueue.__init__(quota)`: empty registry, empty queue, counter 0. -/
def BatchQueue.init {α β : Type} (quota : Nat) (start : ℚ) :
    BatchQueueState α β :=
  { quota := quota, call_backs := [], queue := [], count := 0, start := start }

/-- The dequeue loop of `execute` (lines 113-117): up to `n` iterations, each
checking `qsize() == 0` (break) and otherwise taking the front item.  Returns
the batch in dequeue order and the remaining queue. -/
def dequeueUpTo {α : Type} : Nat → List (α × String) →
    List (α × String) × List (α × String)
  | 0, q => ([], q)
  | _ + 1, [] => ([], [])
  | n + 1, x :: rest =>
      let p := dequeueUpTo n rest
      (x :: p.1, p.2)

/-- `BatchQueue.execute` (lines 104-119), state part only (the `@rate_limited(1)`
wrapper is modelled separately as `rate_limited_function`): builds a batch by
dequeuing up to `quota` items, then unconditionally calls
`batch.execute(http=httplib2.Http())` — one transport submission, returned in
the second component, performed even when the batch is empty. -/
def execute {α β : Type} (st : BatchQueueState α β) :
    BatchQueueState α β × List (List (α × String)) :=
  let p := dequeueUpTo st.quota st.queue
  ({ st with queue := p.2 }, [p.1])

/-- Observable events of one `call_back` run, in the order the code produces
them: a `flushed` event per transport submission of the nested `execute`, and
`invoked id` when the registered callback is called with
`(request_id, response, exception)` (response and exception are forwarded
opaquely and not modelled). -/
inductive CBEvent (α : Type) where
  | flushed (batch : List (α × String))
  | invoked (id : String)
deriving DecidableEq

/-- Result of one `call_back` run: the state after the run (Python object state
persists even when a `KeyError` is raised), the event trace, and the callback
that was looked up (`none` models the uncaught `KeyError` on line 77, which
aborts the run before any invocation). -/
structure CBResult (α β : Type) where
  state : BatchQueueState α β
  events : List (CBEvent α)
  found : Option β
deriving DecidableEq

/-- `BatchQueue.call_back` (lines 58-78), faithful to the source order:
`self.count += 1`; if `self.count == self.quota` then `self.count = 0` and
`self.execute()`; then `callback = self.call_backs[request_id]` (KeyError if
absent, with all prior mutations kept); then `callback(request_id, ...)`. -/
def call_back {α β : Type} (st : BatchQueueState α β) (request_id : String) :
    CBResult α β :=
  let st1 : BatchQueueState α β := { st with count := st.count + 1 }
  let p : BatchQueueState α β × List (CBEvent α) :=
    if st1.count = st1.quota then
      let q := execute { st1 with count := 0 }
      (q.1, q.2.map CBEvent.flushed)
    else (st1, [])
  match dictLookup p.1.call_backs request_id with
  | some cb => ⟨p.1, p.2 ++ [CBEvent.invoked request_id], some cb⟩
  | none => ⟨p.1, p.2, none⟩

/-- `BatchQueue.add` (lines 80-102): `if not request_id` (Python truthiness:
`None` and the empty string are both falsy) substitutes the freshly generated
`str(uuid.uuid4())`, then registers the callback and enqueues the request.
Returns the new state and the request id used. -/
def BatchQueue.add {α β : Type} (st : BatchQueueState α β) (request : α)
    (callback : β) (request_id : Option String) (fresh : String) :
    BatchQueueState α β × String :=
  let rid := match request_id with
    | none => fresh
    | some s => if s = "" then fresh else s
  ({ st with
      call_backs := dictInsert st.call_backs rid callback,
      queue := st.queue ++ [(request, rid)] }, rid)

/-- `min_interval = 1.0 / float(max_per_second)` (line 21). -/
def min_interval (max_per_second : ℚ) : ℚ := 1 / max_per_second

/-- Timing trace of one run of `rate_limited_function` (lines 25-33). -/
structure RLCall where
  sleep : ℚ
  callStart : ℚ
  callFinish : ℚ
  new_last : ℚ
deriving DecidableEq

/-- The body of `rate_limited_function` (lines 25-33) on an explicit clock:
`elapsed = clock - last_time_called`; sleep exactly
`left_to_wait = min_interval - elapsed` when positive; run the wrapped
function (taking `dur` time units); record the post-completion clock in
`last_time_called`. -/
def rate_limited_function (min_int last now dur : ℚ) : RLCall :=
  let elapsed := now - last
  let left_to_wait := min_int - elapsed
  let sleepFor := if 0 < left_to_wait then left_to_wait else 0
  let s := now + sleepFor
  let f := s + dur
  ⟨sleepFor, s, f, f⟩

/-- A process holding two distinct `BatchQueue` instances.  The decorator
`@rate_limited(1)` (line 104) runs when the class body is evaluated, so the
closure cell `last_time_called` (line 24) is created once and shared by the
bound method `execute` of every instance; it is modelled as the single field
`last_time_called` of the world, not as a per-instance field. -/
structure TwoQueueWorld (α β : Type) where
  bq0 : BatchQueueState α β
  bq1 : BatchQueueState α β
  last_time_called : ℚ
  now : ℚ
deriving DecidableEq

/-- Calling the rate-limited `execute` bound method of instance `i` in a
two-instance process: the timing wrapper reads and writes the shared closure
cell, the state effect touches only instance `i`.  `dur` is the time the
wrapped body takes.  Returns the new world and the transport submissions. -/
def world_execute {α β : Type} (w : TwoQueueWorld α β) (i : Fin 2) (dur : ℚ) :
    TwoQueueWorld α β × List (List (α × String)) :=
  let c := rate_limited_function (min_interval 1) w.last_time_called w.now dur
  match i with
  | ⟨0, _⟩ =>
      let p := execute w.bq0
      ({ w with bq0 := p.1, last_time_called := c.new_last, now := c.callFinish },
       p.2)
  | ⟨_ + 1, _⟩ =>
      let p := execute w.bq1
      ({ w with bq1 := p.1, last_time_called := c.new_last, now := c.callFinish },
       p.2)

/-- One externally triggered operation on a `BatchQueue` instance: a producer
`add`, a manual `execute`, or the transport delivering one response. -/
inductive BQStep (α β : Type) where
  | add (request : α) (callback : β) (request_id : Option String) (fresh : String)
  | flush
  | deliver (request_id : String)

/-- State reached after applying one operation (response/exception payloads and
timing are irrelevant to the instance state and omitted). -/
def applyStep {α β : Type} (st : BatchQueueState α β) :
    BQStep α β → BatchQueueState α β
  | .add r cb rid f => (BatchQueue.add st r cb rid f).1
  | .flush => (execute st).1
  | .deliver id => (call_back st id).state

/-- State reached from `st` after a sequence of operations. -/
def runSteps {α β : Type} :
    BatchQueueState α β → List (BQStep α β) → BatchQueueState α β
  | st, [] => st
  | st, s :: rest => runSteps (applyStep st s) rest

/-- Number of `flushed` events (transport submissions triggered) in a trace. -/
def numFlushes {α : Type} (evs : List (CBEvent α)) : Nat :=
  (evs.filter fun e => match e with | .flushed _ => true | .invoked _ => false).length

/-- Modelled from the spec: section 4.4 `onResponse(id, response, error)` as the
spec orders its steps — increments CompletionCounter; looks up and invokes the
registered Callback; then, if CompletionCounter equals Quota, resets it to 0
and invokes flush.  When the lookup fails the remaining steps do not run. -/
def onResponse_spec {α β : Type} (st : BatchQueueState α β) (request_id : String) :
    CBResult α β :=
  let st1 : BatchQueueState α β := { st with count := st.count + 1 }
  match dictLookup st1.call_backs request_id with
  | none => ⟨st1, [], none⟩
  | some cb =>
      if st1.count = st1.quota then
        let q := execute { st1 with count := 0 }
        ⟨q.1, CBEvent.invoked request_id :: q.2.map CBEvent.flushed, some cb⟩
      else ⟨st1, [CBEvent.invoked request_id], some cb⟩

/-- Modelled from the spec, amended to the source order of `call_back`:
increments CompletionCounter; if it equals Quota, resets it to 0 and invokes
flush; then looks up and invokes the registered Callback — the auto-flush
precedes the callback invocation and happens even when the lookup fails. -/
def onResponse_amended_spec {α β : Type} (st : BatchQueueState α β)
    (request_id : String) : CBResult α β :=
  let st1 : BatchQueueState α β := { st with count := st.count + 1 }
  let p : BatchQueueState α β × List (CBEvent α) :=
    if st1.count = st1.quota then
      let q := execute { st1 with count := 0 }
      (q.1, q.2.map CBEvent.flushed)
    else (st1, [])
  match dictLookup p.1.call_backs request_id with
  | none => ⟨p.1, p.2, none⟩
  | some cb => ⟨p.1, p.2 ++ [CBEvent.invoked request_id], some cb⟩

/-- Modelled from the spec: section 6 transport contract — `submitBatch` invokes
`onEach` once per item of the batch.  `BatchHttpRequest.execute` runs the
per-item callbacks in sequence; an exception raised by one callback (here the
`KeyError` modelled by `found = none`) propagates and aborts delivery to the
remaining items.  Returns the final state and `true` when every delivery ran. -/
def deliverAll {α β : Type} (st : BatchQueueState α β) :
    List String → BatchQueueState α β × Bool
  | [] => (st, true)
  | id :: rest =>
      let r := call_back st id
      match r.found with
      | none => (r.state, false)
      | some _ => deliverAll r.state rest

/-- Requests added in C1's scenario: each carries the request, the callback and
the freshly generated id its `add` call would draw from `uuid.uuid4()`. -/
def runAdds {α β : Type} :
    BatchQueueState α β → List (α × β × String) → BatchQueueState α β
  | st, [] => st
  | st, p :: rest => runAdds (BatchQueue.add st p.1 p.2.1 none p.2.2).1 rest

/-- Concrete run for exercising C1: three `add` calls (requests 10, 11, 12 with
opaque callbacks 0 and generated ids a, b, c) against quota 2. -/
def itemsC1 : List (Nat × Nat × String) := [(10, 0, "a"), (11, 0, "b"), (12, 0, "c")]

/-- Concrete instance state for exercising `call_back` ordering: quota 1,
callback registered for id a, one request still queued. -/
def stC3 : BatchQueueState Nat Nat :=
  { quota := 1, call_backs := [("a", 0)], queue := [(7, "x")], count := 0, start := 0 }

/-- Concrete two-instance process: both queues fresh with quota 1, shared
`last_time_called` cell at 0, clock at 5. -/
def w0C4 : TwoQueueWorld Nat Nat :=
  { bq0 := BatchQueue.init 1 0, bq1 := BatchQueue.init 1 0,
    last_time_called := 0, now := 5 }

/-- Concrete instance state with only id a registered, for delivering a
response with an unknown id z. -/
def stC5 : BatchQueueState Nat Nat :=
  { quota := 2, call_backs := [("a", 1)], queue := [], count := 0, start := 0 }

/-- Concrete instance state with two registered callbacks, for observing the
registry across a response delivery. -/
def stC9 : BatchQueueState Nat Nat :=
  { quota := 3, call_backs := [("a", 5), ("b", 6)], queue := [(1, "c")],
    count := 0, start := 0 }

/-! Helper lemmas. -/

theorem dequeueUpTo_eq {α : Type} :
    ∀ (n : Nat) (q : List (α × String)), dequeueUpTo n q = (q.take n, q.drop n)
  | 0, _ => rfl
  | _ + 1, [] => rfl
  | n + 1, x :: rest => by
      simp [dequeueUpTo, dequeueUpTo_eq n rest]

theorem execute_eq {α β : Type} (st : BatchQueueState α β) :
    execute st =
      ({ st with queue := st.queue.drop st.quota }, [st.queue.take st.quota]) := by
  simp [execute, dequeueUpTo_eq]

theorem runAdds_queue {α β : Type} :
    ∀ (items : List (α × β × String)) (st : BatchQueueState α β),
      (runAdds st items).queue = st.queue ++ items.map fun p => (p.1, p.2.2)
  | [], st => by simp [runAdds]
  | p :: rest, st => by
      simp [runAdds, runAdds_queue rest, BatchQueue.add]

theorem runAdds_quota {α β : Type} :
    ∀ (items : List (α × β × String)) (st : BatchQueueState α β),
      (runAdds st items).quota = st.quota
  | [], _ => rfl
  | p :: rest, st => by
      simp [runAdds, runAdds_quota rest, BatchQueue.add]

theorem dictLookup_insert_ne {β : Type} (k k' : String) (v : β)
    (h : k' ≠ k) :
    ∀ d : List (String × β), dictLookup (dictInsert d k v) k' = dictLookup d k'
  | [] => by simp [dictInsert, dictLookup, Ne.symm h]
  | (k0, v0) :: rest => by
      by_cases h0 : k0 = k
      · simp [dictInsert, dictLookup, h0, h, Ne.symm h]
      · simp [dictInsert, dictLookup, h0, dictLookup_insert_ne k k' v h rest]

theorem call_back_state {α β : Type} (st : BatchQueueState α β) (id : String) :
    (call_back st id).state =
      if st.count + 1 = st.quota then
        { st with count := 0, queue := st.queue.drop st.quota }
      else { st with count := st.count + 1 } := by
  by_cases h : st.count + 1 = st.quota
  · simp only [call_back, execute_eq]
    simp [h]
    cases hd :
        dictLookup
          ({ st with count := 0, queue := st.queue.drop st.quota } :
            BatchQueueState α β).call_backs id <;>
      simp [hd]
  · simp only [call_back]
    simp [h]
    cases hd :
        dictLookup ({ st with count := st.count + 1 } :
          BatchQueueState α β).call_backs id <;>
      simp [hd]

theorem call_back_numFlushes {α β : Type} (st : BatchQueueState α β)
    (id : String) :
    numFlushes (call_back st id).events =
      if st.count + 1 = st.quota then 1 else 0 := by
  by_cases h : st.count + 1 = st.quota
  · simp only [call_back, execute_eq]
    simp [h]
    cases hd :
        dictLookup
          ({ st with count := 0, queue := st.queue.drop st.quota } :
            BatchQueueState α β).call_backs id <;>
      simp [hd, numFlushes]
  · simp only [call_back]
    simp [h]
    cases hd :
        dictLookup ({ st with count := st.count + 1 } :
          BatchQueueState α β).call_backs id <;>
      simp [hd, numFlushes]

theorem call_back_call_backs {α β : Type} (st : BatchQueueState α β)
    (id : String) :
    (call_back st id).state.call_backs = st.call_backs := by
  rw [call_back_state]
  by_cases h : st.count + 1 = st.quota <;> simp [h]

theorem applyStep_quota {α β : Type} (st : BatchQueueState α β)
    (s : BQStep α β) : (applyStep st s).quota = st.quota := by
  cases s with
  | add r cb rid f => simp [applyStep, BatchQueue.add]
  | flush => simp [applyStep, execute_eq]
  | deliver id =>
      simp only [applyStep, call_back_state]
      by_cases h : st.count + 1 = st.quota <;> simp [h]

theorem applyStep_count_lt {α β : Type} (st : BatchQueueState α β)
    (s : BQStep α β) (h : st.count < st.quota) :
    (applyStep st s).count < (applyStep st s).quota := by
  rw [applyStep_quota]
  cases s with
  | add r cb rid f => simpa [applyStep, BatchQueue.add] using h
  | flush => simpa [applyStep, execute_eq] using h
  | deliver id =>
      simp only [applyStep, call_back_state]
      by_cases hc : st.count + 1 = st.quota <;> simp [hc] <;> omega

theorem runSteps_invariant {α β : Type} :
    ∀ (steps : List (BQStep α β)) (st : BatchQueueState α β),
      st.count < st.quota →
      (runSteps st steps).count < (runSteps st steps).quota
  | [], _, h => h
  | s :: rest, st, h =>
      runSteps_invariant rest (applyStep st s) (applyStep_count_lt st s h)

theorem rate_limited_start_ge (mi last now dur : ℚ) :
    last + mi ≤ (rate_limited_function mi last now dur).callStart := by
  simp only [rate_limited_function]
  split_ifs with h <;> linarith

theorem rate_limited_sleep_eq (mi last now dur : ℚ) :
    (rate_limited_function mi last now dur).sleep =
      if now - last < mi then mi - (now - last) else 0 := by
  simp only [rate_limited_function]
  split_ifs with h h' <;> first | rfl | linarith

theorem rate_limited_new_last (mi last now dur : ℚ) :
    (rate_limited_function mi last now dur).new_last =
      (rate_limited_function mi last now dur).callFinish := rfl

/-! Claim theorems. -/

/-- C1: for every quota Q >= 1, after N `add()` calls on a fresh instance and
one flush, the single submitted batch holds exactly min(N, Q) operations in
the order they were added, and exactly max(N - Q, 0) operations remain
queued. -/
theorem C1_execute_after_adds {α β : Type} (Q : Nat) (hQ : 1 ≤ Q) (t0 : ℚ)
    (items : List (α × β × String)) :
    (execute (runAdds (BatchQueue.init Q t0) items)).2 =
      [(items.map fun p => (p.1, p.2.2)).take Q] ∧
    ((items.map fun p => (p.1, p.2.2)).take Q).length = min items.length Q ∧
    (execute (runAdds (BatchQueue.init Q t0) items)).1.queue =
      (items.map fun p => (p.1, p.2.2)).drop Q ∧
    (((execute (runAdds (BatchQueue.init Q t0) items)).1.queue.length : ℤ) =
      max ((items.length : ℤ) - (Q : ℤ)) 0) := by
  rw [execute_eq]
  simp [runAdds_queue, runAdds_quota, BatchQueue.init, List.length_take,
    List.length_drop, List.length_map]
  omega

/-- C1 witness: quota 2, three adds; the batch is the first two items and one
item stays queued. -/
theorem C1_witness :
    1 ≤ 2 ∧
    ((execute (runAdds (BatchQueue.init 2 0) itemsC1)).2 =
        [(itemsC1.map fun p => (p.1, p.2.2)).take 2] ∧
      ((itemsC1.map fun p => (p.1, p.2.2)).take 2).length = min itemsC1.length 2 ∧
      (execute (runAdds (BatchQueue.init 2 0) itemsC1)).1.queue =
        (itemsC1.map fun p => (p.1, p.2.2)).drop 2 ∧
      (((execute (runAdds (BatchQueue.init 2 0) itemsC1)).1.queue.length : ℤ) =
        max ((itemsC1.length : ℤ) - (2 : ℤ)) 0)) :=
  ⟨by decide, C1_execute_after_adds 2 (by decide) 0 itemsC1⟩

/-- C2 counterexample: on a fresh instance with an empty queue, `execute`
still performs one transport submission (`batch.execute` runs unconditionally
on line 119, with an empty batch), so the claim that no transport call is made
fails. -/
theorem C2_counterexample :
    (execute (@BatchQueue.init Nat Nat 3 0)).2 = [[]] ∧
    (execute (@BatchQueue.init Nat Nat 3 0)).2 ≠ [] := by decide

/-- C2 amended: calling `execute` with the queue empty dequeues nothing,
leaves the instance state unchanged and raises no error, but it still contacts
the transport exactly once, submitting an empty batch. -/
theorem C2_execute_empty_queue {α β : Type} (st : BatchQueueState α β)
    (h : st.queue = []) : execute st = (st, [[]]) := by
  obtain ⟨Q, cbs, qu, c, s⟩ := st
  simp only at h
  subst h
  simp [execute_eq]

/-- C2 witness: the amended statement evaluated on a fresh instance. -/
theorem C2_witness :
    (@BatchQueue.init Nat Nat 3 0).queue = [] ∧
    execute (@BatchQueue.init Nat Nat 3 0) = (@BatchQueue.init Nat Nat 3 0, [[]]) :=
  ⟨rfl, C2_execute_empty_queue (@BatchQueue.init Nat Nat 3 0) rfl⟩

/-- C3 counterexample: with quota 1 and a queued request, delivering the
response for the registered id a makes `call_back` differ from the spec's step
order: the code performs the auto-flush before invoking the registered
callback, while the claim orders the invocation first. -/
theorem C3_counterexample :
    call_back stC3 "a" ≠ onResponse_spec stC3 "a" ∧
    (call_back stC3 "a").events =
      [CBEvent.flushed [(7, "x")], CBEvent.invoked "a"] ∧
    (onResponse_spec stC3 "a").events =
      [CBEvent.invoked "a", CBEvent.flushed [(7, "x")]] := by decide

/-- C3 amended: `call_back` increments the counter, then, if the counter
equals the quota, resets it to 0 and invokes flush, and only then looks up and
invokes the registered callback — the auto-flush precedes the callback
invocation and happens even when the lookup fails. -/
theorem C3_call_back_order {α β : Type} (st : BatchQueueState α β)
    (id : String) : call_back st id = onResponse_amended_spec st id := by
  by_cases h : st.count + 1 = st.quota
  · simp only [call_back, onResponse_amended_spec, execute_eq]
    simp [h]
    cases hd : dictLookup st.call_backs id <;> simp [hd]
  · simp only [call_back, onResponse_amended_spec]
    simp [h]
    cases hd : dictLookup st.call_backs id <;> simp [hd]

/-- C4: evidence that the rate-limiter state is shared, not per-instance —
the decorator closure cell is written by instance 0's `execute` (from 0 to 5),
and instance 1's next rate-limited call at time 11/2 is made to sleep 1/2
because of it, while against instance 1's own prior state it would not sleep
at all. -/
theorem C4_shared_limiter_state :
    (world_execute w0C4 0 0).1.last_time_called = 5 ∧
    w0C4.last_time_called = 0 ∧
    (rate_limited_function (min_interval 1)
        (world_execute w0C4 0 0).1.last_time_called (11 / 2) 0).sleep = 1 / 2 ∧
    (rate_limited_function (min_interval 1)
        w0C4.last_time_called (11 / 2) 0).sleep = 0 := by
  have h1 : rate_limited_function (min_interval 1) 0 5 0 = ⟨0, 5, 5, 5⟩ := by
    norm_num [rate_limited_function, min_interval]
  have h2 : (world_execute w0C4 0 0).1.last_time_called = 5 := by
    simp [world_execute, w0C4, h1]
  have h3 : rate_limited_function (min_interval 1) 5 (11 / 2) 0 =
      ⟨1 / 2, 6, 6, 6⟩ := by
    norm_num [rate_limited_function, min_interval]
  have h4 : rate_limited_function (min_interval 1) 0 (11 / 2) 0 =
      ⟨0, 11 / 2, 11 / 2, 11 / 2⟩ := by
    norm_num [rate_limited_function, min_interval]
  refine ⟨h2, rfl, ?_, ?_⟩
  · rw [h2, h3]
  · show (rate_limited_function (min_interval 1) 0 (11 / 2) 0).sleep = 0
    rw [h4]

/-- C5: a response delivered for the unregistered id z raises the uncaught
`KeyError` of line 77 (modelled as `found = none`) after the counter increment
already happened; under the transport's per-item delivery loop this aborts
delivery for the rest of the batch: delivering z then the registered a stops
at z and a's callback is never reached (the counter stays at 1). -/
theorem C5_unknown_id_crashes_delivery :
    (call_back stC5 "z").found = none ∧
    (call_back stC5 "z").state.count = 1 ∧
    (deliverAll stC5 ["z", "a"]).2 = false ∧
    (deliverAll stC5 ["z", "a"]).1.count = 1 := by decide

/-- C6: two `add` calls with the same explicit id a do not fail: the second
silently overwrites the registry entry (callback 2 replaces callback 1) while
both requests stay queued under the same id. -/
theorem C6_duplicate_id_overwritten :
    (BatchQueue.add
        (BatchQueue.add (@BatchQueue.init Nat Nat 2 0) 10 1 (some "a") "f1").1
        11 2 (some "a") "f2").1.call_backs = [("a", 2)] ∧
    (BatchQueue.add
        (BatchQueue.add (@BatchQueue.init Nat Nat 2 0) 10 1 (some "a") "f1").1
        11 2 (some "a") "f2").1.queue = [(10, "a"), (11, "a")] := by decide

/-- C7: from a fresh instance with quota Q >= 1, in every state reachable by
any sequence of add, flush and response-delivery operations the completion
counter stays strictly below the quota; delivering a response when the
incremented counter reaches the quota resets it to 0 and triggers exactly one
flush in that same step, and otherwise the counter just increments and no
flush is triggered. -/
theorem C7_counter_invariant {α β : Type} (Q : Nat) (hQ : 1 ≤ Q) (t0 : ℚ)
    (steps : List (BQStep α β)) (id : String) :
    (runSteps (BatchQueue.init Q t0) steps).count <
      (runSteps (BatchQueue.init Q t0) steps).quota ∧
    ((runSteps (BatchQueue.init Q t0) steps).count + 1 =
        (runSteps (BatchQueue.init Q t0) steps).quota →
      (call_back (runSteps (BatchQueue.init Q t0) steps) id).state.count = 0 ∧
      numFlushes (call_back (runSteps (BatchQueue.init Q t0) steps) id).events = 1) ∧
    ((runSteps (BatchQueue.init Q t0) steps).count + 1 ≠
        (runSteps (BatchQueue.init Q t0) steps).quota →
      (call_back (runSteps (BatchQueue.init Q t0) steps) id).state.count =
        (runSteps (BatchQueue.init Q t0) steps).count + 1 ∧
      numFlushes (call_back (runSteps (BatchQueue.init Q t0) steps) id).events = 0) := by
  refine ⟨runSteps_invariant steps (BatchQueue.init Q t0) ?_, ?_, ?_⟩
  · simp [BatchQueue.init]
    omega
  · intro h
    rw [call_back_state, call_back_numFlushes]
    simp [h]
  · intro h
    rw [call_back_state, call_back_numFlushes]
    simp [h]

/-- C7 witness: quota 1, fresh instance, one delivery for id a. -/
theorem C7_witness :
    1 ≤ 1 ∧
    ((runSteps (@BatchQueue.init Nat Nat 1 0) []).count <
        (runSteps (@BatchQueue.init Nat Nat 1 0) []).quota ∧
      ((runSteps (@BatchQueue.init Nat Nat 1 0) []).count + 1 =
          (runSteps (@BatchQueue.init Nat Nat 1 0) []).quota →
        (call_back (runSteps (@BatchQueue.init Nat Nat 1 0) []) "a").state.count = 0 ∧
        numFlushes (call_back (runSteps (@BatchQueue.init Nat Nat 1 0) []) "a").events = 1) ∧
      ((runSteps (@BatchQueue.init Nat Nat 1 0) []).count + 1 ≠
          (runSteps (@BatchQueue.init Nat Nat 1 0) []).quota →
        (call_back (runSteps (@BatchQueue.init Nat Nat 1 0) []) "a").state.count =
          (runSteps (@BatchQueue.init Nat Nat 1 0) []).count + 1 ∧
        numFlushes (call_back (runSteps (@BatchQueue.init Nat Nat 1 0) []) "a").events = 0)) :=
  ⟨by decide, C7_counter_invariant 1 (by decide) 0 [] "a"⟩

/-- C8: with the clock modelled explicitly (sleep advances it by exactly the
requested amount), between the completion of one invocation of the wrapped
operation — the timestamp the wrapper records in `last_time_called` — and the
start of the next invocation at least 1 / max_per_second elapses; and the next
caller sleeps exactly the remaining part of that interval when invoked early,
and does not sleep at all otherwise. -/
theorem C8_rate_limiter_spacing (r last0 now0 dur0 now1 dur1 : ℚ)
    (hr : 0 < r)
    (h1 : (rate_limited_function (min_interval r) last0 now0 dur0).callFinish ≤ now1) :
    (rate_limited_function (min_interval r) last0 now0 dur0).callFinish + 1 / r ≤
      (rate_limited_function (min_interval r)
        (rate_limited_function (min_interval r) last0 now0 dur0).new_last
        now1 dur1).callStart ∧
    (rate_limited_function (min_interval r)
        (rate_limited_function (min_interval r) last0 now0 dur0).new_last
        now1 dur1).sleep =
      (if now1 - (rate_limited_function (min_interval r) last0 now0 dur0).new_last < 1 / r
       then 1 / r - (now1 - (rate_limited_function (min_interval r) last0 now0 dur0).new_last)
       else 0) := by
  constructor
  · have h := rate_limited_start_ge (min_interval r)
      (rate_limited_function (min_interval r) last0 now0 dur0).new_last now1 dur1
    rw [rate_limited_new_last] at h
    simpa [min_interval] using h
  · have h := rate_limited_sleep_eq (min_interval r)
      (rate_limited_function (min_interval r) last0 now0 dur0).new_last now1 dur1
    simpa [min_interval] using h

/-- C8 witness: max_per_second 2, a first call finishing at 1/2, a second call
arriving at 3/4 — it sleeps the remaining 1/4 and starts at 1 = 1/2 + 1/2. -/
theorem C8_witness :
    0 < (2 : ℚ) ∧
    (rate_limited_function (min_interval 2) 0 0 0).callFinish ≤ 3 / 4 ∧
    ((rate_limited_function (min_interval 2) 0 0 0).callFinish + 1 / 2 ≤
      (rate_limited_function (min_interval 2)
        (rate_limited_function (min_interval 2) 0 0 0).new_last (3 / 4) 0).callStart ∧
    (rate_limited_function (min_interval 2)
        (rate_limited_function (min_interval 2) 0 0 0).new_last (3 / 4) 0).sleep =
      (if (3 / 4 : ℚ) - (rate_limited_function (min_interval 2) 0 0 0).new_last < 1 / 2
       then 1 / 2 - ((3 / 4 : ℚ) - (rate_limited_function (min_interval 2) 0 0 0).new_last)
       else 0)) :=
  ⟨by norm_num,
   by norm_num [rate_limited_function, min_interval],
   C8_rate_limiter_spacing 2 0 0 0 (3 / 4) 0 (by norm_num)
     (by norm_num [rate_limited_function, min_interval])⟩

/-- C9: delivering a response for a registered id never removes anything from
the callback registry: the registry after the delivery is exactly the registry
before it, and in particular still contains the entry for the delivered id. -/
theorem C9_registry_preserved {α β : Type} (st : BatchQueueState α β)
    (id : String) (cb : β) (h : dictLookup st.call_backs id = some cb) :
    (call_back st id).state.call_backs = st.call_backs ∧
    dictLookup (call_back st id).state.call_backs id = some cb := by
  refine ⟨call_back_call_backs st id, ?_⟩
  rw [call_back_call_backs st id]
  exact h

/-- C9 witness: delivering a's response leaves both registered entries in
place. -/
theorem C9_witness :
    dictLookup stC9.call_backs "a" = some 5 ∧
    ((call_back stC9 "a").state.call_backs = stC9.call_backs ∧
      dictLookup (call_back stC9 "a").state.call_backs "a" = some 5) :=
  ⟨by decide, C9_registry_preserved stC9 "a" 5 (by decide)⟩

/-- C10: an `add` call passing the empty string as request_id behaves exactly
like an `add` call passing no id at all — the freshly generated id is
registered, enqueued and returned — and the empty string is never stored as a
registry key. -/
theorem C10_empty_id_generates {α β : Type} (st : BatchQueueState α β)
    (r : α) (cb : β) (fresh : String) (hf : fresh ≠ "") :
    BatchQueue.add st r cb (some "") fresh = BatchQueue.add st r cb none fresh ∧
    (BatchQueue.add st r cb (some "") fresh).2 = fresh ∧
    (dictLookup st.call_backs "" = none →
      dictLookup (BatchQueue.add st r cb (some "") fresh).1.call_backs "" = none) := by
  refine ⟨rfl, rfl, fun h0 => ?_⟩
  show dictLookup (dictInsert st.call_backs fresh cb) "" = none
  rw [dictLookup_insert_ne fresh "" cb (Ne.symm hf) st.call_backs]
  exact h0

/-- C10 witness: the empty-string id on a fresh instance with generated id
u-1. -/
theorem C10_witness :
    "u-1" ≠ "" ∧
    (BatchQueue.add (@BatchQueue.init Nat Nat 2 0) 5 7 (some "") "u-1" =
        BatchQueue.add (@BatchQueue.init Nat Nat 2 0) 5 7 none "u-1" ∧
      (BatchQueue.add (@BatchQueue.init Nat Nat 2 0) 5 7 (some "") "u-1").2 = "u-1" ∧
      (dictLookup (@BatchQueue.init Nat Nat 2 0).call_backs "" = none →
        dictLookup
          (BatchQueue.add (@BatchQueue.init Nat Nat 2 0) 5 7 (some "") "u-1").1.call_backs
          "" = none)) :=
  ⟨by decide, C10_empty_id_generates (@BatchQueue.init Nat Nat 2 0) 5 7 "u-1" (by decide)⟩
